import Mathlib

/-!
Verification development for the minimal COMPAS viewer script.

The transform-math helpers and the orbit camera of the script work on
floating-point scalars; they are modelled here over the real numbers.
Python division raising ZeroDivisionError is modelled by returning
Option.none from the guarded definitions.  The geometry-traversal and
buffer-building code is modelled over lists with an abstract coordinate
type, so that buffer contents and GPU allocation counts can be computed
exactly.
-/

set_option autoImplicit false

namespace Minimal

/-- Degrees to radians, as in math.radians. -/
noncomputable def radians (x : ℝ) : ℝ := x * Real.pi / 180

/-- The perspective helper of the script.  It computes
sy = 1/tan(radians(fov)/2), sx = sy/aspect, zz = (far+near)/(near-far),
zw = 2*far*near/(near-far) and returns the 4x4 row-major matrix.
The three divisions raise ZeroDivisionError exactly when
tan(radians(fov)/2) = 0, aspect = 0 or near = far; this is modelled by
returning none in those cases. -/
noncomputable def perspective (fov aspect near far : ℝ) : Option (List (List ℝ)) :=
  let t := Real.tan (radians fov / 2)
  if t = 0 ∨ aspect = 0 ∨ near - far = 0 then
    none
  else
    let sy := 1 / t
    let sx := sy / aspect
    let zz := (far + near) / (near - far)
    let zw := 2 * far * near / (near - far)
    some [[sx, 0, 0, 0],
          [0, sy, 0, 0],
          [0, 0, zz, zw],
          [0, 0, -1, 0]]

/-- 3-vectors with real coordinates, as used by the geometry kernel. -/
structure Vec3 where
  x : ℝ
  y : ℝ
  z : ℝ

/-- compas subtract_vectors. -/
def subtract_vectors (u v : Vec3) : Vec3 :=
  ⟨u.x - v.x, u.y - v.y, u.z - v.z⟩

/-- compas cross_vectors. -/
def cross_vectors (u v : Vec3) : Vec3 :=
  ⟨u.y * v.z - u.z * v.y, u.z * v.x - u.x * v.z, u.x * v.y - u.y * v.x⟩

/-- compas length_vector: Euclidean length. -/
noncomputable def length_vector (v : Vec3) : ℝ :=
  Real.sqrt (v.x * v.x + v.y * v.y + v.z * v.z)

/-- compas normalize_vector: divides by the length, returning the vector
unchanged when the length is zero. -/
noncomputable def normalize_vector (v : Vec3) : Vec3 :=
  let l := length_vector v
  if l = 0 then v else ⟨v.x / l, v.y / l, v.z / l⟩

/-- The lookat helper of the script: d = normalize(target-eye),
r = cross(d, normalize(up)), u = cross(r, d), assembled into a 4x4
row-major matrix with -eye in the last column.  No degeneracy check is
performed anywhere on this path. -/
noncomputable def lookat (eye target up : Vec3) : List (List ℝ) :=
  let d := normalize_vector (subtract_vectors target eye)
  let r := cross_vectors d (normalize_vector up)
  let u := cross_vectors r d
  [[r.x, r.y, r.z, -eye.x],
   [u.x, u.y, u.z, -eye.y],
   [-d.x, -d.y, -d.z, -eye.z],
   [0, 0, 0, 1]]

/-- State of the orbit camera (PerspectiveCamera in the script).  The
target list target[0], target[1], target[2] is modelled by three scalar
fields. -/
structure PerspectiveCamera where
  fov : ℝ
  near : ℝ
  far : ℝ
  distance : ℝ
  target0 : ℝ
  target1 : ℝ
  target2 : ℝ
  rx : ℝ
  rz : ℝ
  tx : ℝ
  ty : ℝ
  tz : ℝ
  zoom_delta : ℝ
  rotation_delta : ℝ
  pan_delta : ℝ

/-- The camera state built by PerspectiveCamera.__init__ with all default
arguments: fov 45, near 0.1, far 100, distance 10, target [0,0,0],
rx -60, rz -30, tx = ty = tz = 0, zoom step 0.05, rotation step 1,
pan step 0.1. -/
noncomputable def PerspectiveCamera.initial : PerspectiveCamera where
  fov := 45
  near := 0.1
  far := 100
  distance := 10
  target0 := 0
  target1 := 0
  target2 := 0
  rx := -60
  rz := -30
  tx := 0
  ty := 0
  tz := 0
  zoom_delta := 0.05
  rotation_delta := 1
  pan_delta := 0.1

/-- PerspectiveCamera.rotate, with the mouse deltas passed explicitly:
rx += rotation_delta * dy and rz += rotation_delta * dx. -/
def PerspectiveCamera.rotate (c : PerspectiveCamera) (mdx mdy : ℝ) :
    PerspectiveCamera :=
  { c with rx := c.rx + c.rotation_delta * mdy,
           rz := c.rz + c.rotation_delta * mdx }

/-- PerspectiveCamera.pan, with the mouse deltas passed explicitly.  The
screen delta is decomposed through the rz/rx trigonometry, scaled by
distance/10, tx and ty are updated with the pan step, the target x/y
components are rebound to the negated offsets, and target.z and distance
are both decremented by the same dz.  The Python statements mutate the
fields in order, so target[0] reads the already-updated tx. -/
noncomputable def PerspectiveCamera.pan (c : PerspectiveCamera) (mdx mdy : ℝ) :
    PerspectiveCamera :=
  let sinrz := Real.sin (radians c.rz)
  let cosrz := Real.cos (radians c.rz)
  let sinrx := Real.sin (radians c.rx)
  let cosrx := Real.cos (radians c.rx)
  let dx := mdx * cosrz - mdy * sinrz * cosrx
  let dy := mdy * cosrz * cosrx + mdx * sinrz
  let dz := mdy * sinrx * c.pan_delta
  let dx := dx * (c.distance / 10)
  let dy := dy * (c.distance / 10)
  let dz := dz * (c.distance / 10)
  let tx := c.tx + c.pan_delta * dx
  let ty := c.ty - c.pan_delta * dy
  { c with tx := tx,
           ty := ty,
           target0 := -tx,
           target1 := -ty,
           target2 := c.target2 - dz,
           distance := c.distance - dz }

/-- PerspectiveCamera.zoom: distance -= steps * zoom_delta * distance. -/
def PerspectiveCamera.zoom (c : PerspectiveCamera) (steps : ℝ) :
    PerspectiveCamera :=
  { c with distance := c.distance - steps * c.zoom_delta * c.distance }

/-- One user interaction dispatched to the camera by the view's event
handlers: left drag rotates, right drag pans, the wheel zooms. -/
inductive CameraOp where
  | rotate (mdx mdy : ℝ)
  | pan (mdx mdy : ℝ)
  | zoom (steps : ℝ)

/-- Apply one interaction to the camera state. -/
noncomputable def applyOp (c : PerspectiveCamera) : CameraOp → PerspectiveCamera
  | .rotate mdx mdy => c.rotate mdx mdy
  | .pan mdx mdy => c.pan mdx mdy
  | .zoom steps => c.zoom steps

section Objects

variable {V : Type}

/-- The face-vertex traversal of one face inside MeshObject.front: a
triangle contributes its three corner positions, a quad (a,b,c,d) the six
positions of the triangles (a,b,c) and (a,c,d), and any other vertex
count raises NotImplementedError (modelled as none). -/
def faceTriangles (pos : Nat → V) : List Nat → Option (List V)
  | [a, b, c] => some [pos a, pos b, pos c]
  | [a, b, c, d] => some [pos a, pos b, pos c, pos a, pos c, pos d]
  | _ => none

/-- A mesh as seen through the geometry-kernel boundary: an ordered face
list (each face an ordered vertex-id list) and a coordinate query. -/
structure MeshData (V : Type) where
  faces : List (List Nat)
  pos : Nat → V

/-- The position list built by the MeshObject.front property: the faces
are traversed in order and each face appends its triangle corners; the
first unsupported face aborts the whole pass. -/
def MeshObject.front (pos : Nat → V) : List (List Nat) → Option (List V)
  | [] => some []
  | f :: rest =>
    match faceTriangles pos f, MeshObject.front pos rest with
    | some t, some ts => some (t ++ ts)
    | _, _ => none

/-- The position list built by the MeshObject.back property: identical to
the front pass except that each face list is reversed before
triangulation. -/
def MeshObject.back (pos : Nat → V) : List (List Nat) → Option (List V)
  | [] => some []
  | f :: rest =>
    match faceTriangles pos f.reverse, MeshObject.back pos rest with
    | some t, some ts => some (t ++ ts)
    | _, _ => none

/-- GPU allocation counts: vertex-array objects created by
glGenVertexArrays and buffers created by glGenBuffers via
make_vertex_buffer. -/
structure GLState where
  vaoCount : Nat
  bufCount : Nat
  deriving DecidableEq

/-- MeshObject.init, tracking GPU allocations.  The method first
generates the four vertex-array objects, then reads the front property
twice (each access rebuilds the pass and allocates two buffers), then
back twice, then edges twice, then vertices twice.  A NotImplementedError
in the front pass propagates out (result false) after the four VAOs were
already generated and before any buffer is allocated. -/
def MeshObject.init (m : MeshData V) (s : GLState) : GLState × Bool :=
  let s1 : GLState := { s with vaoCount := s.vaoCount + 4 }
  match MeshObject.front m.pos m.faces with
  | none => (s1, false)
  | some _ =>
    let s2 : GLState := { s1 with bufCount := s1.bufCount + 4 }
    match MeshObject.back m.pos m.faces with
    | none => (s2, false)
    | some _ =>
      ({ s2 with bufCount := s2.bufCount + 12 }, true)

/-- A network as seen through the geometry-kernel boundary: an ordered
node list, an ordered edge list of node-id pairs, and a coordinate
query. -/
structure NetworkData (V : Type) where
  nodes : List Nat
  edges : List (Nat × Nat)
  pos : Nat → V

/-- The position list built by the NetworkObject.nodes property: one
entry per node, in node order. -/
def NetworkObject.nodeVertices (n : NetworkData V) : List V :=
  n.nodes.map n.pos

/-- The position list built by the NetworkObject.edges property: for each
edge (u, v), the positions of u and v are appended in order. -/
def NetworkObject.edgeVertices (n : NetworkData V) : List V :=
  n.edges.foldr (fun uv acc => n.pos uv.1 :: n.pos uv.2 :: acc) []

end Objects

/-- The state Viewer.add acts on: the view's keyed object collection
(key, renderable tag) and the number of renderable constructors that have
run. -/
structure ViewerState where
  objects : List (Nat × Nat)
  constructed : Nat
  deriving DecidableEq

/-- Lookup in the DTYPE_OTYPE registry, keyed by the runtime type tag of
the added data. -/
def lookupRegistry : List (Nat × Nat) → Nat → Option Nat
  | [], _ => none
  | (k, v) :: rest, t => if k = t then some v else lookupRegistry rest t

/-- Viewer.add: the statement `objects[data] = DTYPE_OTYPE[type(data)](data)`
evaluates the registry subscript first, so a missing type raises KeyError
(result false) before any constructor runs and before the collection is
touched; otherwise the constructed renderable is stored under the data's
key. -/
def Viewer.add (registry : List (Nat × Nat)) (st : ViewerState)
    (dataId dataType : Nat) : ViewerState × Bool :=
  match lookupRegistry registry dataType with
  | none => (st, false)
  | some ctor =>
    ({ objects := st.objects ++ [(dataId, ctor)],
       constructed := st.constructed + 1 }, true)

/-!  Theorems about the camera operations. -/

/-- Claim C5: pan decomposes the pointer delta through the current rz/rx
trigonometry, scales it by distance/10 and the pan step, updates tx and
ty, sets target.x = -tx and target.y = -ty (with the updated offsets),
and applies target.z -= dz and distance -= dz with one and the same dz. -/
theorem pan_dolly_coupling (c : PerspectiveCamera) (mdx mdy : ℝ) :
    (c.pan mdx mdy).tx =
      c.tx + c.pan_delta *
        ((mdx * Real.cos (radians c.rz) -
          mdy * Real.sin (radians c.rz) * Real.cos (radians c.rx)) *
          (c.distance / 10)) ∧
    (c.pan mdx mdy).ty =
      c.ty - c.pan_delta *
        ((mdy * Real.cos (radians c.rz) * Real.cos (radians c.rx) +
          mdx * Real.sin (radians c.rz)) * (c.distance / 10)) ∧
    (c.pan mdx mdy).target0 = -((c.pan mdx mdy).tx) ∧
    (c.pan mdx mdy).target1 = -((c.pan mdx mdy).ty) ∧
    (c.pan mdx mdy).target2 =
      c.target2 - mdy * Real.sin (radians c.rx) * c.pan_delta * (c.distance / 10) ∧
    (c.pan mdx mdy).distance =
      c.distance - mdy * Real.sin (radians c.rx) * c.pan_delta * (c.distance / 10) := by
  refine ⟨?_, ?_, ?_, ?_, ?_, ?_⟩ <;> simp [PerspectiveCamera.pan]

/-- Claim C9: pan leaves distance - target.z unchanged (both fields are
decremented by the same dz) and does not touch fov, near, far, rx or
rz. -/
theorem pan_preserves_depth_offset (c : PerspectiveCamera) (mdx mdy : ℝ) :
    (c.pan mdx mdy).distance - (c.pan mdx mdy).target2 =
      c.distance - c.target2 ∧
    (c.pan mdx mdy).fov = c.fov ∧
    (c.pan mdx mdy).near = c.near ∧
    (c.pan mdx mdy).far = c.far ∧
    (c.pan mdx mdy).rx = c.rx ∧
    (c.pan mdx mdy).rz = c.rz := by
  refine ⟨?_, ?_, ?_, ?_, ?_, ?_⟩ <;> simp [PerspectiveCamera.pan]

/-- Claim C6: zoom is multiplicative, distance -= steps * k * distance;
zoom(1) then zoom(-1) with the same step k therefore lands on
d*(1-k)*(1+k) = d*(1-k^2), a drift of exactly d*k^2 below the starting
distance d. -/
theorem zoom_drift (c : PerspectiveCamera) (steps : ℝ) :
    (c.zoom steps).distance = c.distance - steps * c.zoom_delta * c.distance ∧
    ((c.zoom 1).zoom (-1)).distance =
      c.distance * (1 - c.zoom_delta) * (1 + c.zoom_delta) ∧
    ((c.zoom 1).zoom (-1)).distance = c.distance * (1 - c.zoom_delta ^ 2) ∧
    c.distance - ((c.zoom 1).zoom (-1)).distance =
      c.distance * c.zoom_delta ^ 2 := by
  refine ⟨?_, ?_, ?_, ?_⟩ <;> simp [PerspectiveCamera.zoom] <;> ring

/-- The pan bookkeeping invariant: the target x/y components mirror the
negated translation offsets. -/
def TargetMirrorsOffsets (c : PerspectiveCamera) : Prop :=
  c.target0 = -c.tx ∧ c.target1 = -c.ty

theorem applyOp_targetMirrorsOffsets (c : PerspectiveCamera) (op : CameraOp)
    (h : TargetMirrorsOffsets c) : TargetMirrorsOffsets (applyOp c op) := by
  cases op with
  | rotate mdx mdy =>
      exact ⟨by simpa [applyOp, PerspectiveCamera.rotate] using h.1,
             by simpa [applyOp, PerspectiveCamera.rotate] using h.2⟩
  | pan mdx mdy =>
      exact ⟨by simp [applyOp, PerspectiveCamera.pan],
             by simp [applyOp, PerspectiveCamera.pan]⟩
  | zoom steps =>
      exact ⟨by simpa [applyOp, PerspectiveCamera.zoom] using h.1,
             by simpa [applyOp, PerspectiveCamera.zoom] using h.2⟩

theorem foldl_targetMirrorsOffsets (ops : List CameraOp) :
    ∀ c : PerspectiveCamera, TargetMirrorsOffsets c →
      TargetMirrorsOffsets (List.foldl applyOp c ops) := by
  induction ops with
  | nil => exact fun c h => h
  | cons op rest ih =>
      exact fun c h => ih (applyOp c op) (applyOp_targetMirrorsOffsets c op h)

/-- Claim C8: from the initial camera state (tx = ty = 0, target at the
origin), every sequence of rotate, pan and zoom interactions keeps
target.x = -tx and target.y = -ty. -/
theorem camera_target_offset_invariant (ops : List CameraOp) :
    (List.foldl applyOp PerspectiveCamera.initial ops).target0 =
      -(List.foldl applyOp PerspectiveCamera.initial ops).tx ∧
    (List.foldl applyOp PerspectiveCamera.initial ops).target1 =
      -(List.foldl applyOp PerspectiveCamera.initial ops).ty :=
  foldl_targetMirrorsOffsets ops PerspectiveCamera.initial
    ⟨by simp [PerspectiveCamera.initial], by simp [PerspectiveCamera.initial]⟩

/-!  Theorems about the mesh and network passes. -/

section ObjectTheorems

variable {V : Type}

theorem faceTriangles_quad_length (pos : Nat → V) (f : List Nat)
    (h : f.length = 4) :
    ∃ t, faceTriangles pos f = some t ∧ t.length = 6 := by
  rcases f with _ | ⟨a, _ | ⟨b, _ | ⟨c, _ | ⟨d, _ | ⟨e, t⟩⟩⟩⟩⟩ <;>
    simp_all [faceTriangles]

theorem front_quads_length (pos : Nat → V) (faces : List (List Nat))
    (h : ∀ f ∈ faces, f.length = 4) :
    ∃ l, MeshObject.front pos faces = some l ∧ l.length = 6 * faces.length := by
  induction faces with
  | nil => exact ⟨[], rfl, rfl⟩
  | cons f rest ih =>
      obtain ⟨t, ht, htl⟩ := faceTriangles_quad_length pos f (h f (by simp))
      obtain ⟨l, hl, hll⟩ := ih (fun g hg => h g (by simp [hg]))
      refine ⟨t ++ l, ?_, ?_⟩
      · simp [MeshObject.front, ht, hl]
      · simp [htl, hll]; ring

theorem back_eq_front_reverse (pos : Nat → V) (faces : List (List Nat)) :
    MeshObject.back pos faces =
      MeshObject.front pos (faces.map List.reverse) := by
  induction faces with
  | nil => rfl
  | cons f rest ih => simp [MeshObject.back, MeshObject.front, ih]

/-- Claim C4: a quad (a,b,c,d) is triangulated into exactly (a,b,c) and
(a,c,d); an all-quad mesh yields 2 * faceCount triangles (6 * faceCount
corner positions) in the front pass, the back pass yields the same count,
and the back pass is the front pass applied to the same face list with
each face's vertex order reversed. -/
theorem quad_mesh_triangulation (pos : Nat → V) (faces : List (List Nat))
    (a b c d : Nat) (h : ∀ f ∈ faces, f.length = 4) :
    faceTriangles pos [a, b, c, d] =
      some [pos a, pos b, pos c, pos a, pos c, pos d] ∧
    (MeshObject.front pos faces).map List.length =
      some (3 * (2 * faces.length)) ∧
    (MeshObject.back pos faces).map List.length =
      some (3 * (2 * faces.length)) ∧
    MeshObject.back pos faces =
      MeshObject.front pos (faces.map List.reverse) := by
  obtain ⟨l, hl, hll⟩ := front_quads_length pos faces h
  have hrev : ∀ f ∈ faces.map List.reverse, f.length = 4 := by
    intro f hf
    obtain ⟨g, hg, rfl⟩ := List.mem_map.1 hf
    simp [h g hg]
  obtain ⟨l2, hl2, hll2⟩ := front_quads_length pos (faces.map List.reverse) hrev
  refine ⟨rfl, ?_, ?_, back_eq_front_reverse pos faces⟩
  · simp [hl, hll]; ring
  · simp [back_eq_front_reverse, hl2, hll2]; ring

/-- Witness for C4 on a concrete two-quad mesh. -/
theorem quad_mesh_triangulation_witness :
    (∀ f ∈ [[0, 1, 2, 3], [4, 5, 6, 7]], List.length f = 4) ∧
    (faceTriangles (fun v => v) [0, 1, 2, 3] = some [0, 1, 2, 0, 2, 3] ∧
      (MeshObject.front (fun v => v) [[0, 1, 2, 3], [4, 5, 6, 7]]).map
        List.length = some (3 * (2 * [[0, 1, 2, 3], [4, 5, 6, 7]].length)) ∧
      (MeshObject.back (fun v => v) [[0, 1, 2, 3], [4, 5, 6, 7]]).map
        List.length = some (3 * (2 * [[0, 1, 2, 3], [4, 5, 6, 7]].length)) ∧
      MeshObject.back (fun v => v) [[0, 1, 2, 3], [4, 5, 6, 7]] =
        MeshObject.front (fun v => v)
          ([[0, 1, 2, 3], [4, 5, 6, 7]].map List.reverse)) :=
  ⟨by decide,
    quad_mesh_triangulation (fun v => v) [[0, 1, 2, 3], [4, 5, 6, 7]]
      0 1 2 3 (by decide)⟩

theorem faceTriangles_unsupported (pos : Nat → V) (f : List Nat)
    (h3 : f.length ≠ 3) (h4 : f.length ≠ 4) :
    faceTriangles pos f = none := by
  rcases f with _ | ⟨a, _ | ⟨b, _ | ⟨c, _ | ⟨d, _ | ⟨e, t⟩⟩⟩⟩⟩ <;>
    simp_all [faceTriangles]

theorem front_none_of_unsupported (pos : Nat → V) (faces : List (List Nat))
    (f : List Nat) (hmem : f ∈ faces) (hf : faceTriangles pos f = none) :
    MeshObject.front pos faces = none := by
  induction faces with
  | nil => cases hmem
  | cons g rest ih =>
      rcases List.mem_cons.1 hmem with rfl | hmem₂
      · simp [MeshObject.front, hf]
      · cases hg : faceTriangles pos g <;>
          simp [MeshObject.front, hg, ih hmem₂]

end ObjectTheorems

/-- Claim C3 (amended): a face whose vertex count is neither 3 nor 4
aborts the front pass with the hard NotImplementedError — it is not
skipped and no vertex buffer is ever created for the object — but the
four vertex-array objects generated at the top of init have already been
allocated and remain so. -/
theorem mesh_init_unsupported_face {V : Type} (m : MeshData V) (s : GLState)
    (f : List Nat) (hmem : f ∈ m.faces) (h3 : f.length ≠ 3)
    (h4 : f.length ≠ 4) :
    MeshObject.init m s =
      ({ vaoCount := s.vaoCount + 4, bufCount := s.bufCount }, false) := by
  have hfront : MeshObject.front m.pos m.faces = none :=
    front_none_of_unsupported m.pos m.faces f hmem
      (faceTriangles_unsupported m.pos f h3 h4)
  simp [MeshObject.init, hfront]

/-- Witness for C3 on a concrete one-pentagon mesh. -/
theorem mesh_init_unsupported_face_witness :
    ([0, 1, 2, 3, 4] ∈ (⟨[[0, 1, 2, 3, 4]], fun v => v⟩ : MeshData Nat).faces ∧
      List.length [0, 1, 2, 3, 4] ≠ 3 ∧ List.length [0, 1, 2, 3, 4] ≠ 4) ∧
    MeshObject.init (⟨[[0, 1, 2, 3, 4]], fun v => v⟩ : MeshData Nat) ⟨0, 0⟩ =
      ({ vaoCount := 0 + 4, bufCount := 0 }, false) :=
  ⟨⟨by decide, by decide, by decide⟩,
    mesh_init_unsupported_face (⟨[[0, 1, 2, 3, 4]], fun v => v⟩ : MeshData Nat)
      ⟨0, 0⟩ [0, 1, 2, 3, 4] (by decide) (by decide) (by decide)⟩

/-- Counterexample for C3 as stated: on a mesh with one 5-vertex face the
initialization fails, yet four vertex-array objects remain allocated, so
the failed object does leave a partial GPU allocation behind. -/
theorem mesh_init_pentagon_partial_alloc :
    MeshObject.init (⟨[[0, 1, 2, 3, 4]], fun v => v⟩ : MeshData Nat) ⟨0, 0⟩ =
      (⟨4, 0⟩, false) ∧
    (MeshObject.init (⟨[[0, 1, 2, 3, 4]], fun v => v⟩ : MeshData Nat)
        ⟨0, 0⟩).1.vaoCount ≠ 0 := by
  exact ⟨rfl, by decide⟩

theorem edgeVertices_length_aux {V : Type} (pos : Nat → V)
    (es : List (Nat × Nat)) :
    (es.foldr (fun uv acc => pos uv.1 :: pos uv.2 :: acc) []).length =
      2 * es.length := by
  induction es with
  | nil => rfl
  | cons e rest ih => simp [ih]; ring

/-- Claim C7: the node pass stores one position entry per node and the
edge pass two per edge; with 4 nodes and 3 edges that is exactly 4 and 6
entries. -/
theorem network_buffer_counts {V : Type} (n : NetworkData V)
    (hn : n.nodes.length = 4) (he : n.edges.length = 3) :
    (NetworkObject.nodeVertices n).length = n.nodes.length ∧
    (NetworkObject.edgeVertices n).length = 2 * n.edges.length ∧
    (NetworkObject.nodeVertices n).length = 4 ∧
    (NetworkObject.edgeVertices n).length = 6 := by
  have h1 : (NetworkObject.nodeVertices n).length = n.nodes.length := by
    simp [NetworkObject.nodeVertices]
  have h2 : (NetworkObject.edgeVertices n).length = 2 * n.edges.length :=
    edgeVertices_length_aux n.pos n.edges
  exact ⟨h1, h2, by rw [h1, hn], by rw [h2, he]⟩

/-- Witness for C7 on a concrete 4-node, 3-edge network. -/
theorem network_buffer_counts_witness :
    ((⟨[0, 1, 2, 3], [(0, 1), (1, 2), (2, 3)], fun v => v⟩ :
        NetworkData Nat).nodes.length = 4 ∧
      (⟨[0, 1, 2, 3], [(0, 1), (1, 2), (2, 3)], fun v => v⟩ :
        NetworkData Nat).edges.length = 3) ∧
    (NetworkObject.nodeVertices
      (⟨[0, 1, 2, 3], [(0, 1), (1, 2), (2, 3)], fun v => v⟩ :
        NetworkData Nat)).length = 4 ∧
    (NetworkObject.edgeVertices
      (⟨[0, 1, 2, 3], [(0, 1), (1, 2), (2, 3)], fun v => v⟩ :
        NetworkData Nat)).length = 6 := by
  have h := network_buffer_counts
    (⟨[0, 1, 2, 3], [(0, 1), (1, 2), (2, 3)], fun v => v⟩ : NetworkData Nat)
    (by decide) (by decide)
  exact ⟨⟨by decide, by decide⟩, h.2.2.1, h.2.2.2⟩

/-- Claim C10: adding a geometry object whose runtime type has no
registry entry fails with KeyError before any renderable is constructed,
leaving the view's object collection (and the constructor count)
unchanged. -/
theorem add_unregistered_type (registry : List (Nat × Nat))
    (st : ViewerState) (dataId dataType : Nat)
    (h : lookupRegistry registry dataType = none) :
    Viewer.add registry st dataId dataType = (st, false) ∧
    (Viewer.add registry st dataId dataType).1.objects = st.objects ∧
    (Viewer.add registry st dataId dataType).1.constructed =
      st.constructed := by
  refine ⟨?_, ?_, ?_⟩ <;> simp [Viewer.add, h]

/-- Witness for C10 with a one-entry registry that lacks the added type. -/
theorem add_unregistered_type_witness :
    lookupRegistry [(1, 7)] 5 = none ∧
    Viewer.add [(1, 7)] ⟨[(9, 7)], 1⟩ 2 5 = (⟨[(9, 7)], 1⟩, false) := by
  have h : lookupRegistry [(1, 7)] 5 = none := by decide
  exact ⟨h, (add_unregistered_type [(1, 7)] ⟨[(9, 7)], 1⟩ 2 5 h).1⟩

/-!  Theorems about the transform-math helpers. -/

/-- Claim C1 (amended): perspective performs no argument validation — it
can only fail through a zero denominator — and on the whole valid domain
fov ∈ (0,180), aspect > 0, 0 < near < far no division raises and it
returns the standard symmetric perspective matrix, with the bottom-right
2x2 block in the standard OpenGL form. -/
theorem perspective_valid_domain (fov aspect near far : ℝ)
    (h0 : 0 < fov) (h180 : fov < 180) (ha : 0 < aspect)
    (hn : 0 < near) (hnf : near < far) :
    perspective fov aspect near far =
      some [[1 / Real.tan (radians fov / 2) / aspect, 0, 0, 0],
            [0, 1 / Real.tan (radians fov / 2), 0, 0],
            [0, 0, (far + near) / (near - far),
              2 * far * near / (near - far)],
            [0, 0, -1, 0]] := by
  have hpi := Real.pi_pos
  have hprod : 0 < fov * Real.pi := mul_pos h0 hpi
  have hmul : fov * Real.pi < 180 * Real.pi :=
    mul_lt_mul_of_pos_right h180 hpi
  have htpos : 0 < Real.tan (radians fov / 2) := by
    apply Real.tan_pos_of_pos_of_lt_pi_div_two
    · unfold radians; linarith
    · unfold radians; linarith
  have ht : Real.tan (radians fov / 2) ≠ 0 := ne_of_gt htpos
  have ha' : aspect ≠ 0 := ne_of_gt ha
  have hnf' : near - far ≠ 0 := sub_ne_zero.2 (ne_of_lt hnf)
  simp [perspective, ht, ha', hnf']

/-- Witness for C1 at fov 90, aspect 1, near 1, far 2. -/
theorem perspective_valid_domain_witness :
    ((0 : ℝ) < 90 ∧ (90 : ℝ) < 180 ∧ (0 : ℝ) < 1 ∧ (0 : ℝ) < 1 ∧
      (1 : ℝ) < 2) ∧
    perspective 90 1 1 2 =
      some [[1 / Real.tan (radians 90 / 2) / 1, 0, 0, 0],
            [0, 1 / Real.tan (radians 90 / 2), 0, 0],
            [0, 0, (2 + 1) / (1 - 2), 2 * 2 * 1 / (1 - 2)],
            [0, 0, -1, 0]] :=
  ⟨⟨by norm_num, by norm_num, by norm_num, by norm_num, by norm_num⟩,
    perspective_valid_domain 90 1 1 2 (by norm_num) (by norm_num)
      (by norm_num) (by norm_num) (by norm_num)⟩

/-- Counterexample for C1 as stated: aspect = -1 is outside the claimed
domain (aspect <= 0), yet the call returns a matrix (with sx = -1)
instead of failing with any error. -/
theorem perspective_no_validation_cex :
    perspective 90 (-1) 1 2 =
      some [[-1, 0, 0, 0], [0, 1, 0, 0], [0, 0, -3, -4], [0, 0, -1, 0]] := by
  have harg : radians 90 / 2 = Real.pi / 4 := by
    unfold radians; ring
  have ht : Real.tan (radians 90 / 2) = 1 := by
    rw [harg, Real.tan_pi_div_four]
  norm_num [perspective, ht]

/-- Claim C2 (amended): lookat has no degeneracy guard.  With target
equal to eye the direction normalizes (zero-safely, as compas
normalize_vector returns a zero-length vector unchanged) to the zero
vector, and the returned matrix has an all-zero rotation block, for every
eye and up — no error is raised. -/
theorem lookat_eye_eye_degenerate (eye up : Vec3) :
    lookat eye eye up =
      [[0, 0, 0, -eye.x], [0, 0, 0, -eye.y], [0, 0, 0, -eye.z],
       [0, 0, 0, 1]] := by
  have hsub : subtract_vectors eye eye = ⟨0, 0, 0⟩ := by
    simp [subtract_vectors]
  have hlen : length_vector ⟨0, 0, 0⟩ = 0 := by
    simp [length_vector]
  have hnorm : normalize_vector ⟨0, 0, 0⟩ = ⟨0, 0, 0⟩ := by
    simp [normalize_vector, hlen]
  simp [lookat, hsub, hnorm, cross_vectors]

/-- Counterexample for C2 as stated: with up parallel to target - eye
(eye at the origin, target and up both the unit z vector) the cross
products degenerate to zero vectors, yet lookat returns a matrix whose
first two rows are zero instead of failing with any error. -/
theorem lookat_parallel_up_cex :
    lookat ⟨0, 0, 0⟩ ⟨0, 0, 1⟩ ⟨0, 0, 1⟩ =
      [[0, 0, 0, 0], [0, 0, 0, 0], [0, 0, -1, 0], [0, 0, 0, 1]] := by
  have hlen : length_vector ⟨0, 0, 1⟩ = 1 := by
    simp [length_vector]
  have hnorm : normalize_vector ⟨0, 0, 1⟩ = ⟨0, 0, 1⟩ := by
    simp [normalize_vector, hlen]
  have hsub : subtract_vectors ⟨0, 0, 1⟩ ⟨0, 0, 0⟩ = ⟨(0 : ℝ), 0, 1⟩ := by
    simp [subtract_vectors]
  simp [lookat, hsub, hnorm, cross_vectors]

end Minimal
